import Mathlib

/-!
Shallow embedding of `tasksB.py`: a collection of sandboxed utility
operations guarded by a path-confinement check.

Modelling conventions:
* Strings are manipulated through their underlying character lists, with
  structural recursion, so that every definition evaluates inside the kernel.
* `normpath` is a faithful translation of `posixpath.normpath` (the
  `os.path.normpath` used by the code on POSIX).
* External collaborators (HTTP client, database engines, image codec,
  markdown renderer, CSV parser) are oracle inputs to each operation.
* The filesystem is a `World`: an association list of file contents plus a
  list of existing directories.  Each operation returns an `Outcome`: a
  result (`Except Err`), the final `World`, and a trace of the external
  I/O effects it performed, in order.
-/

/-- Split a character list on the slash character, mirroring Python
`path.split('/')`: the empty list yields one empty component. -/
def splitSlash : List Char → List (List Char)
  | [] => [[]]
  | c :: rest =>
    let r := splitSlash rest
    if c = '/' then [] :: r
    else
      match r with
      | [] => [[c]]
      | h :: t => (c :: h) :: t

/-- Join components with single slashes, mirroring `'/'.join(comps)`. -/
def joinSlash : List (List Char) → List Char
  | [] => []
  | [x] => x
  | x :: xs => x ++ '/' :: joinSlash xs

/-- One step of `posixpath.normpath`'s component loop: skip empty and `.`
components, append ordinary components, and let `..` pop the previous
component unless it must be kept (relative prefix of `..`s) or dropped
(`..` directly under the root). -/
def normStep (initialSlashes : Nat) (acc : List (List Char)) (comp : List Char) :
    List (List Char) :=
  if comp = [] ∨ comp = ['.'] then acc
  else if comp ≠ ['.', '.'] ∨ (initialSlashes = 0 ∧ acc = []) ∨
      (acc ≠ [] ∧ acc.getLast? = some ['.', '.']) then
    acc ++ [comp]
  else if acc ≠ [] then acc.dropLast
  else acc

/-- Translation of `posixpath.normpath`: lexically resolve `.` and `..`
segments and collapse repeated separators, preserving the POSIX special
case of exactly two leading slashes. -/
def normpath (path : String) : String :=
  if path = "" then "."
  else
    let cs := path.data
    let initialSlashes : Nat :=
      if List.isPrefixOf ['/', '/'] cs ∧ ¬ List.isPrefixOf ['/', '/', '/'] cs then 2
      else if List.isPrefixOf ['/'] cs then 1
      else 0
    let comps := (splitSlash cs).foldl (normStep initialSlashes) []
    let joined := List.replicate initialSlashes '/' ++ joinSlash comps
    if joined = [] then "." else String.mk joined

/-- The sandbox root prefix checked by the guard, as characters. -/
def dataRoot : List Char := ['/', 'd', 'a', 't', 'a']

/-- Translation of `B12`: reject the empty path, otherwise normalize and
test whether the normalized path starts with the literal prefix `/data`.
Total by construction: the Python `try` around `os.path.normpath` can
never fire for a string argument, and the embedding has no exceptions. -/
def B12 (filepath : String) : Bool :=
  if filepath = "" then false
  else List.isPrefixOf dataRoot (normpath filepath).data

example : normpath "" = "." := by decide
example : normpath "/data/../etc/passwd" = "/etc/passwd" := by decide
example : normpath "/data//x/./y" = "/data/x/y" := by decide
example : normpath "a/b/../c" = "a/c" := by decide
example : normpath "//x" = "//x" := by decide
example : normpath "/.." = "/" := by decide
example : B12 "/data/x.txt" = true := by decide
example : B12 "/data" = true := by decide
example : B12 "/etc/passwd" = false := by decide
example : B12 "" = false := by decide
example : B12 "/data/../etc/passwd" = false := by decide
example : B12 "/database/x.txt" = true := by decide

/-- Translation of `posixpath.dirname`: everything up to the last slash,
with trailing slashes stripped unless the head is all slashes. -/
def pyDirname (p : String) : String :=
  let cs := p.data
  match cs.reverse.findIdx? (fun c => decide (c = '/')) with
  | none => ""
  | some j =>
    let head := cs.take (cs.length - j)
    if head.all (fun c => decide (c = '/')) then String.mk head
    else String.mk ((head.reverse.dropWhile (fun c => decide (c = '/'))).reverse)

example : pyDirname "/data/test/x.txt" = "/data/test" := by decide
example : pyDirname "/x" = "/" := by decide
example : pyDirname "x" = "" := by decide
example : pyDirname "//x" = "//" := by decide
example : pyDirname "/data/" = "/data" := by decide

/-- The chain of directories `os.makedirs` brings into existence for `d`:
all ancestors of `d` (outermost first) and `d` itself.  Fuelled recursion;
`pyDirname` either shortens the path or reaches a fixpoint (`/`, `//`). -/
def ancestorChain : Nat → String → List String
  | 0, _ => []
  | fuel + 1, d =>
    if d = "" then []
    else
      let par := pyDirname d
      if par = d ∨ par = "" then [d]
      else ancestorChain fuel par ++ [d]

/-- Add a directory to the set of existing directories if missing. -/
def insertIfAbsent (s : List String) (x : String) : List String :=
  if s.contains x then s else s ++ [x]

/-- Effect of `os.makedirs(d, exist_ok=True)` on the set of existing
directories: every ancestor of `d` and `d` itself exist afterwards, and
directories that already exist are left alone (no error). -/
def mkdirsModel (dirs : List String) (d : String) : List String :=
  (ancestorChain (d.length + 1) d).foldl insertIfAbsent dirs

example : mkdirsModel [] "/data/a" = ["/", "/data", "/data/a"] := by decide
example : mkdirsModel ["/", "/data", "/data/a"] "/data/a" = ["/", "/data", "/data/a"] := by decide

/-- Database engine selected by `B5`. -/
inductive Engine
  | sqlite
  | duckdb
deriving DecidableEq

/-- The two error kinds of the system: `SecurityError` (path outside the
sandbox) and operation faults (a failed external call), each carrying the
message of the raised exception. -/
inductive Err
  | security (msg : String)
  | operation (msg : String)
deriving DecidableEq

/-- External I/O effects, recorded in order of occurrence. -/
inductive Eff
  | httpGet (url : String) (timeout : Nat)
  | dbOpen (path : String) (engine : Engine)
  | dbExec (query : String)
  | dbClose
  | mkdirs (dir : String)
  | fsRead (path : String)
  | fsWriteEff (path : String)
  | imgOpen (path : String)
  | imgSave (path : String)
deriving DecidableEq

/-- Filesystem and directory state visible to the operations. -/
structure World where
  fs : List (String × String)
  dirs : List String
deriving DecidableEq

/-- Result of running one operation: the returned-or-raised value, the
final world, and the trace of external effects performed. -/
structure Outcome (α : Type) where
  res : Except Err α
  world : World
  trace : List Eff

instance {ε : Type} {α : Type} [DecidableEq ε] [DecidableEq α] :
    DecidableEq (Except ε α) := fun a b =>
  match a, b with
  | Except.ok x, Except.ok y =>
    if h : x = y then Decidable.isTrue (by rw [h])
    else Decidable.isFalse (fun hh => by cases hh; exact h rfl)
  | Except.error x, Except.error y =>
    if h : x = y then Decidable.isTrue (by rw [h])
    else Decidable.isFalse (fun hh => by cases hh; exact h rfl)
  | Except.ok _, Except.error _ => Decidable.isFalse (fun hh => by cases hh)
  | Except.error _, Except.ok _ => Decidable.isFalse (fun hh => by cases hh)

/-- Overwrite (or create) the file at `p` with contents `c`. -/
def fsWrite (fs : List (String × String)) (p c : String) : List (String × String) :=
  (p, c) :: fs.filter (fun e => e.fst != p)

/-- Contents of the file at `p`, if it exists. -/
def fsLookup (fs : List (String × String)) (p : String) : Option String :=
  (fs.find? (fun e => e.fst == p)).map (fun e => e.snd)

/-- Translation of `create_directory_if_not_exists`: re-check the guard
(raising `SecurityError` on rejection), then `os.makedirs` the dirname of
the file when it is nonempty. -/
def create_directory_if_not_exists (filepath : String) (w : World) :
    Except Err (World × List Eff) :=
  if B12 filepath then
    let d := pyDirname filepath
    if d = "" then Except.ok (w, [])
    else Except.ok ({ w with dirs := mkdirsModel w.dirs d }, [Eff.mkdirs d])
  else Except.error (Err.security ("Cannot create directory outside /data: " ++ filepath))

/-- An HTTP response as seen through the `requests` oracle. -/
structure HttpResp where
  status : Nat
  body : String
deriving DecidableEq

/-- `response.raise_for_status()` raises exactly for status codes in
[400, 600). -/
def raisesForStatus (status : Nat) : Bool :=
  decide (400 ≤ status) && decide (status < 600)

/-- Translation of `B3` (fetch an API payload and save it).  `http` is the
oracle for `requests.get(url, timeout=30)`: either a transport-level
failure message or a response. -/
def B3 (url save_path : String) (http : Except String HttpResp) (w : World) :
    Outcome Unit :=
  if B12 save_path then
    match http with
    | Except.error e =>
      { res := Except.error (Err.operation e), world := w, trace := [Eff.httpGet url 30] }
    | Except.ok r =>
      if raisesForStatus r.status then
        { res := Except.error (Err.operation "HTTPError"), world := w,
          trace := [Eff.httpGet url 30] }
      else
        match create_directory_if_not_exists save_path w with
        | Except.error e =>
          { res := Except.error e, world := w, trace := [Eff.httpGet url 30] }
        | Except.ok (w1, t1) =>
          { res := Except.ok (),
            world := { w1 with fs := fsWrite w1.fs save_path r.body },
            trace := [Eff.httpGet url 30] ++ t1 ++ [Eff.fsWriteEff save_path] }
  else
    { res := Except.error (Err.security ("Invalid save path: " ++ save_path)),
      world := w, trace := [] }

/-- Translation of `B6` (scrape a page and save it): textually the same
steps as `B3`, differing only in the message of the security fault. -/
def B6 (url output_filename : String) (http : Except String HttpResp) (w : World) :
    Outcome Unit :=
  if B12 output_filename then
    match http with
    | Except.error e =>
      { res := Except.error (Err.operation e), world := w, trace := [Eff.httpGet url 30] }
    | Except.ok r =>
      if raisesForStatus r.status then
        { res := Except.error (Err.operation "HTTPError"), world := w,
          trace := [Eff.httpGet url 30] }
      else
        match create_directory_if_not_exists output_filename w with
        | Except.error e =>
          { res := Except.error e, world := w, trace := [Eff.httpGet url 30] }
        | Except.ok (w1, t1) =>
          { res := Except.ok (),
            world := { w1 with fs := fsWrite w1.fs output_filename r.body },
            trace := [Eff.httpGet url 30] ++ t1 ++ [Eff.fsWriteEff output_filename] }
  else
    { res := Except.error (Err.security ("Invalid output path: " ++ output_filename)),
      world := w, trace := [] }

/-- Engine dispatch in `B5`: `db_path.endswith('.db')` selects SQLite,
anything else DuckDB. -/
def engineFor (db_path : String) : Engine :=
  if List.isSuffixOf ['.', 'd', 'b'] db_path.data then Engine.sqlite
  else Engine.duckdb

/-- Rows returned by `cursor.fetchall()`, each row kept as the opaque
rendering the Python `repr` would give it (a library boundary). -/
def renderRows (rows : List String) : String :=
  "[" ++ String.intercalate ", " rows ++ "]"

/-- Oracle for the database engine and the output write in `B5`: the rows
the query produces (or the engine's failure), and whether the file write
itself fails with an I/O error after truncating the file. -/
structure DbOracle where
  queryResult : Except String (List String)
  writeFails : Bool

/-- Translation of `B5` (run a query and save the rows): guard both paths,
open a connection chosen by `engineFor`, execute and fetch, write
`str(result)` to the output file, and close the connection in a `finally`
on every path that reached the open. -/
def B5 (db_path query output_filename : String) (o : DbOracle) (w : World) :
    Outcome (List String) :=
  if B12 db_path then
    if B12 output_filename then
      let eng := engineFor db_path
      match o.queryResult with
      | Except.error e =>
        { res := Except.error (Err.operation e), world := w,
          trace := [Eff.dbOpen db_path eng, Eff.dbExec query, Eff.dbClose] }
      | Except.ok rows =>
        match create_directory_if_not_exists output_filename w with
        | Except.error e =>
          { res := Except.error e, world := w,
            trace := [Eff.dbOpen db_path eng, Eff.dbExec query, Eff.dbClose] }
        | Except.ok (w1, t1) =>
          if o.writeFails then
            { res := Except.error (Err.operation ("I/O error writing " ++ output_filename)),
              world := { w1 with fs := fsWrite w1.fs output_filename "" },
              trace := [Eff.dbOpen db_path eng, Eff.dbExec query] ++ t1 ++
                [Eff.fsWriteEff output_filename, Eff.dbClose] }
          else
            { res := Except.ok rows,
              world := { w1 with fs := fsWrite w1.fs output_filename (renderRows rows) },
              trace := [Eff.dbOpen db_path eng, Eff.dbExec query] ++ t1 ++
                [Eff.fsWriteEff output_filename, Eff.dbClose] }
    else
      { res := Except.error (Err.security ("Invalid output path: " ++ output_filename)),
        world := w, trace := [] }
  else
    { res := Except.error (Err.security ("Invalid database path: " ++ db_path)),
      world := w, trace := [] }

/-- Stand-in encoding written by `img.save` for an image of the given
dimensions (the codec is a black-box collaborator). -/
def encodeImg (dims : Nat × Nat) : String :=
  "image " ++ Nat.repr dims.fst ++ "x" ++ Nat.repr dims.snd

/-- Translation of `B7` (resize an image): guard both paths, decode the
source (oracle `img`: failure message or pixel dimensions), resize to the
exact requested dimensions when given, then encode to the destination. -/
def B7 (image_path output_path : String) (resize : Option (Nat × Nat))
    (img : Except String (Nat × Nat)) (w : World) : Outcome Unit :=
  if B12 image_path then
    if B12 output_path then
      match img with
      | Except.error e =>
        { res := Except.error (Err.operation e), world := w,
          trace := [Eff.imgOpen image_path] }
      | Except.ok dims =>
        let finalDims := match resize with
          | some d => d
          | none => dims
        match create_directory_if_not_exists output_path w with
        | Except.error e =>
          { res := Except.error e, world := w, trace := [Eff.imgOpen image_path] }
        | Except.ok (w1, t1) =>
          { res := Except.ok (),
            world := { w1 with fs := fsWrite w1.fs output_path (encodeImg finalDims) },
            trace := [Eff.imgOpen image_path] ++ t1 ++ [Eff.imgSave output_path] }
    else
      { res := Except.error (Err.security ("Invalid output path: " ++ output_path)),
        world := w, trace := [] }
  else
    { res := Except.error (Err.security ("Invalid image path: " ++ image_path)),
      world := w, trace := [] }

/-- Translation of `B9` (Markdown to HTML): guard both paths, read the
source file, render it with the black-box `markdown.markdown` (oracle
`render`), and write the HTML to the destination. -/
def B9 (md_path output_path : String) (render : String → String) (w : World) :
    Outcome Unit :=
  if B12 md_path then
    if B12 output_path then
      match fsLookup w.fs md_path with
      | none =>
        { res := Except.error (Err.operation ("No such file: " ++ md_path)),
          world := w, trace := [Eff.fsRead md_path] }
      | some md_content =>
        match create_directory_if_not_exists output_path w with
        | Except.error e =>
          { res := Except.error e, world := w, trace := [Eff.fsRead md_path] }
        | Except.ok (w1, t1) =>
          { res := Except.ok (),
            world := { w1 with fs := fsWrite w1.fs output_path (render md_content) },
            trace := [Eff.fsRead md_path] ++ t1 ++ [Eff.fsWriteEff output_path] }
    else
      { res := Except.error (Err.security ("Invalid output path: " ++ output_path)),
        world := w, trace := [] }
  else
    { res := Except.error (Err.security ("Invalid markdown path: " ++ md_path)),
      world := w, trace := [] }

/-- A CSV cell after `pandas.read_csv` type inference: an integer for
numeric columns, a string otherwise. -/
inductive Cell
  | intVal (n : Int)
  | strVal (s : String)
deriving DecidableEq

/-- A parsed CSV table: column names and rows as field-name-to-value
association lists in column order. -/
structure Table where
  headers : List String
  rows : List (List (String × Cell))
deriving DecidableEq

/-- Value of a row at a named column. -/
def rowLookup (row : List (String × Cell)) (col : String) : Option Cell :=
  (row.find? (fun e => e.fst == col)).map (fun e => e.snd)

/-- Translation of `B10` (filter a CSV): guard the source path only, parse
the CSV (oracle `parse`), raise a lookup fault when the column is missing,
otherwise keep exactly the rows whose value at the column equals the given
string value under `Cell` equality (no coercion between numbers and
strings), returned as records. -/
def B10 (csv_path filter_column filter_value : String)
    (parse : Except String Table) (w : World) :
    Outcome (List (List (String × Cell))) :=
  if B12 csv_path then
    match parse with
    | Except.error e =>
      { res := Except.error (Err.operation e), world := w, trace := [Eff.fsRead csv_path] }
    | Except.ok t =>
      if t.headers.contains filter_column then
        { res := Except.ok (t.rows.filter
            (fun row => rowLookup row filter_column == some (Cell.strVal filter_value))),
          world := w, trace := [Eff.fsRead csv_path] }
      else
        { res := Except.error (Err.operation ("KeyError: " ++ filter_column)),
          world := w, trace := [Eff.fsRead csv_path] }
  else
    { res := Except.error (Err.security ("Invalid CSV path: " ++ csv_path)),
      world := w, trace := [] }

/-- The table of the spec's CSV Filter example: rows
`{id:1,name:"a"}` and `{id:2,name:"b"}` (ids inferred numeric). -/
def exampleTable : Table :=
  { headers := ["id", "name"],
    rows := [[("id", Cell.intVal 1), ("name", Cell.strVal "a")],
             [("id", Cell.intVal 2), ("name", Cell.strVal "b")]] }

/-- Number of connection-open effects in a trace. -/
def countOpens : List Eff → Nat
  | [] => 0
  | Eff.dbOpen _ _ :: t => countOpens t + 1
  | _ :: t => countOpens t

/-- Number of connection-close effects in a trace. -/
def countCloses : List Eff → Nat
  | [] => 0
  | Eff.dbClose :: t => countCloses t + 1
  | _ :: t => countCloses t

/-- A security fault with no I/O performed and the world untouched. -/
def secFailNoEffects {α : Type} (o : Outcome α) (w : World) : Prop :=
  (∃ m, o.res = Except.error (Err.security m)) ∧ o.world = w ∧ o.trace = []

/-- Spec-side notion (from the spec's words, for claim C3): the normalized
path denotes the `/data` directory itself or a location strictly inside
it. -/
def denotesInsideDataDir (s : String) : Bool :=
  s == "/data" || List.isPrefixOf (dataRoot ++ ['/']) s.data

theorem cdine_of_guard (p : String) (w : World) (h : B12 p = true) :
    create_directory_if_not_exists p w =
      (if pyDirname p = "" then Except.ok (w, ([] : List Eff))
       else Except.ok ({ w with dirs := mkdirsModel w.dirs (pyDirname p) },
         [Eff.mkdirs (pyDirname p)])) := by
  unfold create_directory_if_not_exists
  simp [h]

/-- Claim C1: the Path Guard B12 returns true exactly when the lexical
normalization of the path has the literal prefix `/data`, and B12 of the
empty string is false.  (The guard is a total Boolean function of the
path: the embedding has no exceptions, matching "never raises".) -/
theorem C1_guard_iff_normalized_prefix (p : String) :
    (B12 p = true ↔ List.isPrefixOf dataRoot (normpath p).data = true) ∧
    B12 "" = false := by
  constructor
  · by_cases h : p = ""
    · subst h
      decide
    · simp [B12, h]
  · decide

/-- Claim C2: every writing operation (B3, B5, B6, B7, B9) given a
destination path the guard rejects raises a security fault before any
network, database, or filesystem I/O: the result is `SecurityError`, the
effect trace is empty, and the world is unchanged. -/
theorem C2_guard_rejected_dest_fails_before_io
    (dest url db q md img : String) (http : Except String HttpResp)
    (o : DbOracle) (imgo : Except String (Nat × Nat)) (resize : Option (Nat × Nat))
    (render : String → String) (w : World) (h : B12 dest = false) :
    secFailNoEffects (B3 url dest http w) w ∧
    secFailNoEffects (B5 db q dest o w) w ∧
    secFailNoEffects (B6 url dest http w) w ∧
    secFailNoEffects (B7 img dest resize imgo w) w ∧
    secFailNoEffects (B9 md dest render w) w := by
  refine ⟨?_, ?_, ?_, ?_, ?_⟩
  · simp [B3, h, secFailNoEffects]
  · by_cases hdb : B12 db <;> simp [B5, h, hdb, secFailNoEffects]
  · simp [B6, h, secFailNoEffects]
  · by_cases himg : B12 img <;> simp [B7, h, himg, secFailNoEffects]
  · by_cases hmd : B12 md <;> simp [B9, h, hmd, secFailNoEffects]

/-- Concrete instance of C2 at destination `/etc/passwd`. -/
theorem C2_guard_rejected_dest_fails_before_io_witness :
    B12 "/etc/passwd" = false ∧
    (secFailNoEffects (B3 "http://u" "/etc/passwd"
        (Except.ok { status := 200, body := "X" }) { fs := [], dirs := [] })
      { fs := [], dirs := [] } ∧
     secFailNoEffects (B5 "/data/a.db" "SELECT 1" "/etc/passwd"
        { queryResult := Except.ok [], writeFails := false } { fs := [], dirs := [] })
      { fs := [], dirs := [] } ∧
     secFailNoEffects (B6 "http://u" "/etc/passwd"
        (Except.ok { status := 200, body := "X" }) { fs := [], dirs := [] })
      { fs := [], dirs := [] } ∧
     secFailNoEffects (B7 "/data/i.png" "/etc/passwd" none (Except.ok (100, 100))
        { fs := [], dirs := [] }) { fs := [], dirs := [] } ∧
     secFailNoEffects (B9 "/data/m.md" "/etc/passwd" (fun s => s)
        { fs := [], dirs := [] }) { fs := [], dirs := [] }) :=
  have h : B12 "/etc/passwd" = false := by decide
  ⟨h, C2_guard_rejected_dest_fails_before_io "/etc/passwd" "http://u" "/data/a.db"
    "SELECT 1" "/data/m.md" "/data/i.png" (Except.ok { status := 200, body := "X" })
    { queryResult := Except.ok [], writeFails := false } (Except.ok (100, 100)) none
    (fun s => s) { fs := [], dirs := [] } h⟩

/-- Claim C3: the path `/database/x.txt` normalizes to itself, does not
denote a location inside the `/data` directory, yet passes the Path Guard
because the guard tests the string prefix `/data` without requiring a
following separator; consequently every operation accepts paths under
`/database` as read or write targets, and B3 really writes the fetched
body to `/database/x.txt`. -/
theorem C3_guard_prefix_bypass :
    B12 "/database/x.txt" = true ∧
    normpath "/database/x.txt" = "/database/x.txt" ∧
    denotesInsideDataDir (normpath "/database/x.txt") = false ∧
    (B3 "http://u" "/database/x.txt" (Except.ok { status := 200, body := "X" })
      { fs := [], dirs := [] }).res = Except.ok () ∧
    fsLookup (B3 "http://u" "/database/x.txt" (Except.ok { status := 200, body := "X" })
      { fs := [], dirs := [] }).world.fs "/database/x.txt" = some "X" ∧
    (B5 "/database/a.db" "SELECT 1" "/database/out.txt"
      { queryResult := Except.ok ["(1,)"], writeFails := false }
      { fs := [], dirs := [] }).res = Except.ok ["(1,)"] ∧
    (B6 "http://u" "/database/page.txt" (Except.ok { status := 200, body := "P" })
      { fs := [], dirs := [] }).res = Except.ok () ∧
    (B7 "/database/src.png" "/database/out.png" (some (50, 50)) (Except.ok (100, 100))
      { fs := [], dirs := [] }).res = Except.ok () ∧
    (B9 "/database/doc.md" "/database/doc.html" (fun s => s)
      { fs := [("/database/doc.md", "# t")], dirs := [] }).res = Except.ok () ∧
    (B10 "/database/t.csv" "name" "b"
      (Except.ok { headers := ["name"], rows := [[("name", Cell.strVal "b")]] })
      { fs := [], dirs := [] }).res = Except.ok [[("name", Cell.strVal "b")]] := by
  refine ⟨by decide, by decide, by decide, rfl, by decide, rfl, rfl, rfl, rfl, rfl⟩

theorem fsLookup_write_self (fs : List (String × String)) (p c : String) :
    fsLookup (fsWrite fs p c) p = some c := by
  simp [fsLookup, fsWrite]

/-- Claim C4: B3 with a guard-accepted destination and an HTTP response
whose status is non-success (any code in [400, 600), e.g. 404) raises an
operation fault, performs only the GET, and leaves the world unchanged:
the destination file is neither created nor written. -/
theorem C4_fetch_non_success_aborts (url dest : String) (r : HttpResp) (w : World)
    (hg : B12 dest = true) (h4 : 400 ≤ r.status) (h6 : r.status < 600) :
    (B3 url dest (Except.ok r) w).res = Except.error (Err.operation "HTTPError") ∧
    (B3 url dest (Except.ok r) w).world = w ∧
    (B3 url dest (Except.ok r) w).trace = [Eff.httpGet url 30] := by
  have hr : raisesForStatus r.status = true := by
    simp [raisesForStatus, h4, h6]
  simp [B3, hg, hr]

/-- Concrete instance of C4: a 404 against `/data/out.txt`. -/
theorem C4_fetch_non_success_aborts_witness :
    B12 "/data/out.txt" = true ∧
    (B3 "http://u" "/data/out.txt" (Except.ok { status := 404, body := "nf" })
        { fs := [], dirs := [] }).res = Except.error (Err.operation "HTTPError") ∧
    (B3 "http://u" "/data/out.txt" (Except.ok { status := 404, body := "nf" })
        { fs := [], dirs := [] }).world = { fs := [], dirs := [] } ∧
    (B3 "http://u" "/data/out.txt" (Except.ok { status := 404, body := "nf" })
        { fs := [], dirs := [] }).trace = [Eff.httpGet "http://u" 30] :=
  have hg : B12 "/data/out.txt" = true := by decide
  ⟨hg, C4_fetch_non_success_aborts "http://u" "/data/out.txt"
    { status := 404, body := "nf" } { fs := [], dirs := [] } hg
    (by decide) (by decide)⟩

/-- Claim C5: B3 with a guard-accepted destination and an HTTP 200
response with body `b` succeeds, and afterwards the destination file
exists with contents exactly `b`, whatever file (if any) was there before
(the write overwrites). -/
theorem C5_fetch_success_writes_body (url dest b : String) (w : World)
    (hg : B12 dest = true) :
    (B3 url dest (Except.ok { status := 200, body := b }) w).res = Except.ok () ∧
    fsLookup (B3 url dest (Except.ok { status := 200, body := b }) w).world.fs dest =
      some b := by
  have hc := cdine_of_guard dest w hg
  by_cases hd : pyDirname dest = "" <;>
    simp [B3, hg, raisesForStatus, hc, hd, fsLookup_write_self]

/-- Concrete instance of C5: body `X` overwrites a pre-existing file at
`/data/out.txt`. -/
theorem C5_fetch_success_writes_body_witness :
    B12 "/data/out.txt" = true ∧
    (B3 "http://u" "/data/out.txt" (Except.ok { status := 200, body := "X" })
        { fs := [("/data/out.txt", "OLD")], dirs := [] }).res = Except.ok () ∧
    fsLookup (B3 "http://u" "/data/out.txt" (Except.ok { status := 200, body := "X" })
        { fs := [("/data/out.txt", "OLD")], dirs := [] }).world.fs "/data/out.txt" =
      some "X" :=
  have hg : B12 "/data/out.txt" = true := by decide
  ⟨hg, C5_fetch_success_writes_body "http://u" "/data/out.txt" "X"
    { fs := [("/data/out.txt", "OLD")], dirs := [] } hg⟩

/-- Claim C6 counterexample: at the guard-rejected destination
`/etc/passwd` the two operations raise security faults with different
messages (`Invalid save path: ...` vs `Invalid output path: ...`), so
their behavior is not literally identical. -/
theorem C6_counterexample :
    B3 "http://u" "/etc/passwd" (Except.ok { status := 200, body := "X" })
      { fs := [], dirs := [] } ≠
    B6 "http://u" "/etc/passwd" (Except.ok { status := 200, body := "X" })
      { fs := [], dirs := [] } := by
  intro h
  exact absurd (congrArg Outcome.res h) (by decide)

/-- Claim C6 (amended): for every guard-accepted destination, B6 behaves
exactly like B3 (same guard check, same GET with 30-unit timeout and
status check, same directory creation, same write of the raw body, same
raised errors); on a guard-rejected destination both raise a security
fault with no I/O and an unchanged world, differing only in the message
text of the fault. -/
theorem C6_scrape_equals_fetch (url dest : String) (http : Except String HttpResp)
    (w : World) :
    (B12 dest = true → B6 url dest http w = B3 url dest http w) ∧
    (B12 dest = false →
      (B3 url dest http w).res =
        Except.error (Err.security ("Invalid save path: " ++ dest)) ∧
      (B6 url dest http w).res =
        Except.error (Err.security ("Invalid output path: " ++ dest)) ∧
      (B3 url dest http w).world = w ∧ (B6 url dest http w).world = w ∧
      (B3 url dest http w).trace = [] ∧ (B6 url dest http w).trace = []) := by
  constructor
  · intro h
    unfold B3 B6
    simp [h]
  · intro h
    simp [B3, B6, h]

/-- Concrete instance of the amended C6: equal outcomes at `/data/out.txt`,
and the two distinct security-fault messages at `/etc/passwd`. -/
theorem C6_scrape_equals_fetch_witness :
    (B6 "http://u" "/data/out.txt" (Except.ok { status := 200, body := "X" })
        { fs := [], dirs := [] } =
      B3 "http://u" "/data/out.txt" (Except.ok { status := 200, body := "X" })
        { fs := [], dirs := [] }) ∧
    ((B3 "http://u" "/etc/passwd" (Except.ok { status := 200, body := "X" })
        { fs := [], dirs := [] }).res =
      Except.error (Err.security ("Invalid save path: " ++ "/etc/passwd")) ∧
     (B6 "http://u" "/etc/passwd" (Except.ok { status := 200, body := "X" })
        { fs := [], dirs := [] }).res =
      Except.error (Err.security ("Invalid output path: " ++ "/etc/passwd")) ∧
     (B3 "http://u" "/etc/passwd" (Except.ok { status := 200, body := "X" })
        { fs := [], dirs := [] }).world = { fs := [], dirs := [] } ∧
     (B6 "http://u" "/etc/passwd" (Except.ok { status := 200, body := "X" })
        { fs := [], dirs := [] }).world = { fs := [], dirs := [] } ∧
     (B3 "http://u" "/etc/passwd" (Except.ok { status := 200, body := "X" })
        { fs := [], dirs := [] }).trace = [] ∧
     (B6 "http://u" "/etc/passwd" (Except.ok { status := 200, body := "X" })
        { fs := [], dirs := [] }).trace = []) :=
  ⟨(C6_scrape_equals_fetch "http://u" "/data/out.txt"
      (Except.ok { status := 200, body := "X" }) { fs := [], dirs := [] }).1 (by decide),
   (C6_scrape_equals_fetch "http://u" "/etc/passwd"
      (Except.ok { status := 200, body := "X" }) { fs := [], dirs := [] }).2 (by decide)⟩

/-- Claim C7: in B5, every execution trace balances connection opens and
closes (a connection, once opened, is closed before the operation returns
or raises, whatever fails in between), and on success the returned row
set is also the textual rendering written to the output file. -/
theorem C7_connection_always_closed (db q out : String) (o : DbOracle) (w : World) :
    countOpens (B5 db q out o w).trace = countCloses (B5 db q out o w).trace ∧
    ∀ rows, (B5 db q out o w).res = Except.ok rows →
      fsLookup (B5 db q out o w).world.fs out = some (renderRows rows) := by
  by_cases hdb : B12 db
  · by_cases hout : B12 out
    · have hc := cdine_of_guard out w hout
      cases hq : o.queryResult with
      | error e =>
        simp [B5, hdb, hout, hq, countOpens, countCloses]
      | ok rows0 =>
        by_cases hd : pyDirname out = "" <;> by_cases hwf : o.writeFails <;>
          simp [B5, hdb, hout, hq, hc, hd, hwf, countOpens, countCloses,
            fsLookup_write_self]
    · simp [B5, hdb, hout, countOpens, countCloses]
  · simp [B5, hdb, countOpens, countCloses]

/-- Concrete instance of C7: a successful query against `/data/a.db`. -/
theorem C7_connection_always_closed_witness :
    countOpens (B5 "/data/a.db" "SELECT 1" "/data/out.txt"
        { queryResult := Except.ok ["(1,)"], writeFails := false }
        { fs := [], dirs := [] }).trace =
      countCloses (B5 "/data/a.db" "SELECT 1" "/data/out.txt"
        { queryResult := Except.ok ["(1,)"], writeFails := false }
        { fs := [], dirs := [] }).trace ∧
    fsLookup (B5 "/data/a.db" "SELECT 1" "/data/out.txt"
        { queryResult := Except.ok ["(1,)"], writeFails := false }
        { fs := [], dirs := [] }).world.fs "/data/out.txt" =
      some (renderRows ["(1,)"]) :=
  have t := C7_connection_always_closed "/data/a.db" "SELECT 1" "/data/out.txt"
    { queryResult := Except.ok ["(1,)"], writeFails := false } { fs := [], dirs := [] }
  ⟨t.1, t.2 ["(1,)"] (by decide)⟩

/-- Claim C8: B5 selects the engine purely by the `.db` suffix test on the
database path: exactly the paths whose extension is `.db` route to
SQLite, every other path routes to DuckDB, and the connection B5 opens
(the first effect of its trace) uses the selected engine. -/
theorem C8_engine_by_extension (db q out : String) (o : DbOracle) (w : World)
    (hdb : B12 db = true) (hout : B12 out = true) :
    (engineFor db = Engine.sqlite ↔ List.isSuffixOf ['.', 'd', 'b'] db.data = true) ∧
    (engineFor db = Engine.duckdb ↔ List.isSuffixOf ['.', 'd', 'b'] db.data = false) ∧
    (B5 db q out o w).trace.head? = some (Eff.dbOpen db (engineFor db)) := by
  refine ⟨?_, ?_, ?_⟩
  · unfold engineFor
    by_cases h : List.isSuffixOf ['.', 'd', 'b'] db.data <;> simp [h]
  · unfold engineFor
    by_cases h : List.isSuffixOf ['.', 'd', 'b'] db.data <;> simp [h]
  · have hc := cdine_of_guard out w hout
    cases hq : o.queryResult with
    | error e => simp [B5, hdb, hout, hq]
    | ok rows =>
      by_cases hd : pyDirname out = "" <;> by_cases hwf : o.writeFails <;>
        simp [B5, hdb, hout, hq, hc, hd, hwf]

/-- Concrete instance of C8: `/data/a.db` routes to SQLite and the open
effect records it. -/
theorem C8_engine_by_extension_witness :
    B12 "/data/a.db" = true ∧ B12 "/data/out.txt" = true ∧
    ((engineFor "/data/a.db" = Engine.sqlite ↔
        List.isSuffixOf ['.', 'd', 'b'] (String.data "/data/a.db") = true) ∧
     (engineFor "/data/a.db" = Engine.duckdb ↔
        List.isSuffixOf ['.', 'd', 'b'] (String.data "/data/a.db") = false) ∧
     (B5 "/data/a.db" "SELECT 1" "/data/out.txt"
        { queryResult := Except.ok [], writeFails := false }
        { fs := [], dirs := [] }).trace.head? =
       some (Eff.dbOpen "/data/a.db" (engineFor "/data/a.db"))) :=
  have h1 : B12 "/data/a.db" = true := by decide
  have h2 : B12 "/data/out.txt" = true := by decide
  ⟨h1, h2, C8_engine_by_extension "/data/a.db" "SELECT 1" "/data/out.txt"
    { queryResult := Except.ok [], writeFails := false } { fs := [], dirs := [] } h1 h2⟩

theorem mem_foldl_insertIfAbsent_of_mem (l s : List String) (x : String)
    (hx : x ∈ s) : x ∈ l.foldl insertIfAbsent s := by
  induction l generalizing s with
  | nil => exact hx
  | cons a t ih =>
    apply ih
    unfold insertIfAbsent
    split
    · exact hx
    · exact List.mem_append.mpr (Or.inl hx)

theorem mem_insertIfAbsent_self (s : List String) (a : String) :
    a ∈ insertIfAbsent s a := by
  unfold insertIfAbsent
  split
  · next h => simpa using h
  · simp

theorem mem_foldl_insertIfAbsent (l : List String) (x : String) (hx : x ∈ l) :
    ∀ s, x ∈ l.foldl insertIfAbsent s := by
  induction hx with
  | head t =>
    intro s
    exact mem_foldl_insertIfAbsent_of_mem t (insertIfAbsent s x) x
      (mem_insertIfAbsent_self s x)
  | tail b hb ih =>
    intro s
    exact ih (insertIfAbsent s b)

theorem foldl_insertIfAbsent_id (l : List String) (s : List String)
    (h : ∀ x ∈ l, x ∈ s) : l.foldl insertIfAbsent s = s := by
  induction l with
  | nil => rfl
  | cons a t ih =>
    have ha : insertIfAbsent s a = s := by
      unfold insertIfAbsent
      have hm : a ∈ s := h a (List.mem_cons_self a t)
      simp [hm]
    calc (a :: t).foldl insertIfAbsent s
        = t.foldl insertIfAbsent (insertIfAbsent s a) := rfl
      _ = t.foldl insertIfAbsent s := by rw [ha]
      _ = s := ih (fun x hx => h x (List.mem_cons_of_mem a hx))

theorem mkdirsModel_idem (dirs : List String) (d : String) :
    mkdirsModel (mkdirsModel dirs d) d = mkdirsModel dirs d := by
  unfold mkdirsModel
  exact foldl_insertIfAbsent_id _ _ (fun x hx => mem_foldl_insertIfAbsent _ x hx dirs)

/-- Claim C10: the Directory Ensurer raises a security fault on a
guard-rejected path, and on a guard-accepted path it is idempotent: the
first call succeeds yielding some world, and calling it again on that
world succeeds with exactly the same world (and the same effects, since
`makedirs(..., exist_ok=True)` raises no error when the directories
already exist). -/
theorem C10_dir_ensurer_idempotent (p : String) (w : World) :
    (B12 p = false →
      create_directory_if_not_exists p w =
        Except.error (Err.security ("Cannot create directory outside /data: " ++ p))) ∧
    (B12 p = true → ∃ w1 t,
      create_directory_if_not_exists p w = Except.ok (w1, t) ∧
      create_directory_if_not_exists p w1 = Except.ok (w1, t)) := by
  constructor
  · intro h
    simp [create_directory_if_not_exists, h]
  · intro h
    by_cases hd : pyDirname p = ""
    · exact ⟨w, [], by simp [cdine_of_guard p w h, hd],
        by simp [cdine_of_guard p w h, hd]⟩
    · refine ⟨{ w with dirs := mkdirsModel w.dirs (pyDirname p) },
        [Eff.mkdirs (pyDirname p)], ?_, ?_⟩
      · simp [cdine_of_guard p w h, hd]
      · rw [cdine_of_guard p _ h]
        simp [hd, mkdirsModel_idem]

/-- Concrete instance of C10: rejection at `/etc/x`, idempotence at
`/data/a/b.txt`. -/
theorem C10_dir_ensurer_idempotent_witness :
    (create_directory_if_not_exists "/etc/x" { fs := [], dirs := [] } =
      Except.error (Err.security ("Cannot create directory outside /data: " ++ "/etc/x"))) ∧
    (∃ w1 t, create_directory_if_not_exists "/data/a/b.txt" { fs := [], dirs := [] } =
        Except.ok (w1, t) ∧
      create_directory_if_not_exists "/data/a/b.txt" w1 = Except.ok (w1, t)) :=
  ⟨(C10_dir_ensurer_idempotent "/etc/x" { fs := [], dirs := [] }).1 (by decide),
   (C10_dir_ensurer_idempotent "/data/a/b.txt" { fs := [], dirs := [] }).2 (by decide)⟩

/-- Claim C9: the CSV Filter guards only the source path (rejection gives
a security fault with no I/O); with an accepted source and a present
column it returns, with the world untouched, exactly the rows whose value
at the column equals the given value under cell equality with no
string/number coercion; on the spec's example table filtering `name` for
`"b"` returns exactly the record `{id:2,name:"b"}`, and filtering the
numeric column `id` for the string `"2"` matches nothing. -/
theorem C9_csv_filter (csv col v : String) (t : Table) (w : World) :
    (B12 csv = false → secFailNoEffects (B10 csv col v (Except.ok t) w) w) ∧
    (B12 csv = true → t.headers.contains col = true →
      (B10 csv col v (Except.ok t) w).res =
        Except.ok (t.rows.filter
          (fun row => rowLookup row col == some (Cell.strVal v))) ∧
      (B10 csv col v (Except.ok t) w).world = w) ∧
    (B10 "/data/t.csv" "name" "b" (Except.ok exampleTable)
        { fs := [], dirs := [] }).res =
      Except.ok [[("id", Cell.intVal 2), ("name", Cell.strVal "b")]] ∧
    (B10 "/data/t.csv" "id" "2" (Except.ok exampleTable)
        { fs := [], dirs := [] }).res = Except.ok [] := by
  refine ⟨?_, ?_, by decide, by decide⟩
  · intro h
    simp [B10, h, secFailNoEffects]
  · intro h hcol
    have hm : col ∈ t.headers := by simpa using hcol
    simp [B10, h, hm]

/-- Concrete instance of C9: rejection at `/etc/t.csv` and the filtered
example at `/data/t.csv`. -/
theorem C9_csv_filter_witness :
    secFailNoEffects (B10 "/etc/t.csv" "name" "b" (Except.ok exampleTable)
      { fs := [], dirs := [] }) { fs := [], dirs := [] } ∧
    ((B10 "/data/t.csv" "name" "b" (Except.ok exampleTable)
        { fs := [], dirs := [] }).res =
      Except.ok (exampleTable.rows.filter
        (fun row => rowLookup row "name" == some (Cell.strVal "b"))) ∧
     (B10 "/data/t.csv" "name" "b" (Except.ok exampleTable)
        { fs := [], dirs := [] }).world = { fs := [], dirs := [] }) :=
  ⟨(C9_csv_filter "/etc/t.csv" "name" "b" exampleTable { fs := [], dirs := [] }).1
      (by decide),
   (C9_csv_filter "/data/t.csv" "name" "b" exampleTable { fs := [], dirs := [] }).2.1
      (by decide) (by decide)⟩
